import Mathlib

/-!
# Verification of the churn-prediction preprocessing pipeline

A shallow embedding of `src/dags/run_preprocessing.py`: the Airflow DAG
structure and its scheduler semantics, the stage bodies (ingest/clean,
feature selection, output-directory preparation, preprocessor fit,
transform-and-persist, working-directory teardown, artifact purge), and
the filesystem / artifact-store state they act on.

Conventions of the embedding:
* A pandas `DataFrame` is a row index plus a list of named, typed columns;
  cell values are strings (no arithmetic is performed on them here).
* Filesystem paths are lists of components; `os.path.join(a, b)` appends
  one component.
* External collaborators (the statistical feature selector, the
  scikit-learn column transformer) are abstract function parameters.
* `constants.py`, `utilities/data.py`, `utilities/feature_selection.py`
  and `utilities/preprocess.py` are repository files not present under
  `src/`; definitions taken from them are modelled from the spec and say
  so in their doc comments.
-/

/-- Error kinds of the pipeline, following the spec's error taxonomy
(section 7).  `schemaMismatch` stands for the pandas KeyError raised by
`DataFrame.drop` on an absent label, `unknownLabel` for the encoder's
failure on a label outside the training vocabulary. -/
inductive PErr where
  | directoryCreation
  | cleanupFailed
  | schemaMismatch
  | unknownLabel
  | upstreamMissing
deriving DecidableEq, Repr

/-- Column storage type: pandas distinguishes `object` (textual /
categorical) columns from numeric ones via `select_dtypes`. -/
inductive Dtype where
  | object
  | numeric
deriving DecidableEq, Repr

/-- One named, typed column of a data table. -/
structure Column where
  name : String
  dtype : Dtype
  values : List String
deriving DecidableEq, Repr

/-- A pandas data frame: a row index plus ordered named columns. -/
@[ext]
structure DataFrame where
  index : List Nat
  cols : List Column
deriving DecidableEq, Repr

/-- The ordered list of column names of a table. -/
def DataFrame.colNames (df : DataFrame) : List String :=
  df.cols.map Column.name

/-- The values of the column named `n`, or `[]` when absent (the claims
under verification only ever read columns that exist). -/
def targetValues (df : DataFrame) (n : String) : List String :=
  match df.cols.find? (fun c => decide (c.name = n)) with
  | some c => c.values
  | none => []

/-- A path is a list of components; `os.path.join` appends one. -/
abbrev FsPath := List String

/-- Content of a file: either a CSV table or an opaque binary blob (the
pickled preprocessor). -/
inductive FileData where
  | table (df : DataFrame)
  | blob
deriving DecidableEq, Repr

/-- The filesystem: a set of existing directories and a file map.  The
file list is newest-first; `readFile` returns the most recent write. -/
structure FS where
  dirs : List FsPath
  files : List (FsPath × FileData)
deriving DecidableEq, Repr

/-- Write (or overwrite, by shadowing) the file at `p`. -/
def writeFile (fs : FS) (p : FsPath) (d : FileData) : FS :=
  { fs with files := (p, d) :: fs.files }

/-- Read the file at `p`: the most recent write wins. -/
def readFile (fs : FS) (p : FsPath) : Option FileData :=
  match fs.files.find? (fun e => decide (e.1 = p)) with
  | some e => some e.2
  | none => none

/-- `os.makedirs`: creates `p`; with `exist_ok = false` (the
`create_temp_dir` call) an existing directory is an error, with
`exist_ok = true` (the `create_output_dir` call) it is a no-op. -/
def makedirs (fs : FS) (p : FsPath) (existOk : Bool) : Except PErr FS :=
  if p ∈ fs.dirs then
    if existOk then .ok fs else .error .directoryCreation
  else
    .ok { fs with dirs := p :: fs.dirs }

/-- `shutil.rmtree`: recursively removes the directory `d` and everything
under it; fails when `d` does not exist. -/
def rmtree (fs : FS) (d : FsPath) : Except PErr FS :=
  if d ∈ fs.dirs then
    .ok { dirs := fs.dirs.filter (fun p => !(d.isPrefixOf p)),
          files := fs.files.filter (fun e => !(d.isPrefixOf e.1)) }
  else
    .error .cleanupFailed

/-! ## The task-dependency graph

`run_preprocessing.py` declares eleven tasks and wires them with `>>`
(lines 193-197).  No task sets a `trigger_rule`, so every task uses
Airflow's default `all_success` rule: it executes exactly when all of its
direct upstream tasks ran and succeeded. -/

/-- The eleven tasks of `preprocessing_dag`, named by role (their
`task_id` strings live in the absent `constants.py` and are opaque). -/
inductive TaskId where
  | createTempDir
  | readData
  | selectFeatures
  | createStdDir
  | createMinmaxDir
  | createPrepStd
  | createPrepMinmax
  | preprocessStd
  | preprocessMinmax
  | removeTempDir
  | cleanup
deriving DecidableEq, Repr

/-- The dependency edges declared at lines 193-197 of the source. -/
def dagEdges : List (TaskId × TaskId) :=
  [(.createTempDir, .readData),
   (.readData, .selectFeatures),
   (.readData, .createStdDir),
   (.readData, .createMinmaxDir),
   (.createStdDir, .createPrepStd),
   (.createPrepStd, .preprocessStd),
   (.createMinmaxDir, .createPrepMinmax),
   (.createPrepMinmax, .preprocessMinmax),
   (.preprocessStd, .removeTempDir),
   (.preprocessMinmax, .removeTempDir),
   (.removeTempDir, .cleanup)]

/-- Direct upstream tasks of `t`. -/
def parentsOf (t : TaskId) : List TaskId :=
  (dagEdges.filter (fun e => decide (e.2 = t))).map Prod.fst

/-- Bounded fixpoint of the `all_success` scheduler semantics:
`okAt fails n t` says that within `n` rounds task `t` ran and succeeded,
given which tasks would fail if run. -/
def okAt (fails : TaskId → Bool) : Nat → TaskId → Bool
  | 0, _ => false
  | n + 1, t => (parentsOf t).all (okAt fails n) && !(fails t)

/-- Task `t` ran and succeeded (the DAG has depth at most 7, so 11
rounds reach the fixpoint). -/
def taskOk (fails : TaskId → Bool) (t : TaskId) : Bool :=
  okAt fails 11 t

/-- Task `t` executes under the default `all_success` trigger rule: all
of its direct upstream tasks ran and succeeded. -/
def executes (fails : TaskId → Bool) (t : TaskId) : Bool :=
  (parentsOf t).all (taskOk fails)

/-! ## Fixed configuration

`constants.py` is a repository file not present under `src/`; the values
below are modelled from the spec. -/

/-- Modelled from the spec: `train_fname` lives in the absent
`constants.py`; section 6 fixes the filename `train.csv`. -/
def train_fname : String := "train.csv"

/-- Modelled from the spec: `val_fname` lives in the absent
`constants.py`; section 6 fixes the filename `validation.csv`. -/
def val_fname : String := "validation.csv"

/-- Modelled from the spec: `test_fname` lives in the absent
`constants.py`; section 6 fixes the filename `test.csv`. -/
def test_fname : String := "test.csv"

/-- Modelled from the spec: `index_col.lower()` names the row-index
identifier column (the absent `constants.py` fixes the string; the
claims only need it to be one fixed name). -/
def index_column : String := "id"

/-- Modelled from the spec: `preprocessor_fname` lives in the absent
`constants.py`; section 6 fixes the filename `preprocessor.bin`. -/
def preprocessor_fname : String := "preprocessor.bin"

/-- Modelled from the spec: `std_dir` lives in the absent
`constants.py`; section 6 fixes the variant directory `standardized`. -/
def std_dir : String := "standardized"

/-- Modelled from the spec: `minmax_dir` lives in the absent
`constants.py`; section 6 fixes the variant directory `minmax`. -/
def minmax_dir : String := "minmax"

/-! ## Ingestion and cleaning (`read_data`, lines 44-54) -/

/-- `DataFrame.drop(columns=toDrop)` with the default `errors="raise"`:
fails when any listed label is absent, otherwise removes exactly the
listed columns.  The pandas `KeyError` is rendered as the spec's
`SchemaMismatchError`. -/
def dropColumns (df : DataFrame) (toDrop : List String) : Except PErr DataFrame :=
  if ∀ c ∈ toDrop, c ∈ df.colNames then
    .ok { df with cols := df.cols.filter (fun c => decide (c.name ∉ toDrop)) }
  else
    .error .schemaMismatch

/-- The loop body of `read_data`: for each `(f_name, key, raw)` triple,
drop the collinear columns and write the cleaned table to the working
directory under the same filename, accumulating the path dictionary.  A
failure aborts the loop; files already written remain on disk. -/
def read_data_loop (tempDir : FsPath) (coliner : List String) :
    List (String × String × DataFrame) → FS → FS × Except PErr (List (String × FsPath))
  | [], fs => (fs, .ok [])
  | (fname, key, raw) :: rest, fs =>
    match dropColumns raw coliner with
    | .error e => (fs, .error e)
    | .ok cleaned =>
      let fs1 := writeFile fs (tempDir ++ [fname]) (.table cleaned)
      match read_data_loop tempDir coliner rest fs1 with
      | (fs2, .error e) => (fs2, .error e)
      | (fs2, .ok d) => (fs2, .ok ((key, tempDir ++ [fname]) :: d))

/-- `read_data` applied to the three fixed splits. -/
def read_data (tempDir : FsPath) (coliner : List String)
    (rawTrain rawVal rawTest : DataFrame) (fs : FS) :
    FS × Except PErr (List (String × FsPath)) :=
  read_data_loop tempDir coliner
    [(train_fname, "train", rawTrain),
     (val_fname, "validation", rawVal),
     (test_fname, "test", rawTest)] fs

/-! ## Feature selection and fit-stage column inference -/

/-- The categorical candidate set computed in `select_features`
(lines 62-63): the object-typed columns of the train table after the
target is dropped. -/
def cat_cols (train : DataFrame) (target : String) : List String :=
  ((train.cols.filter (fun c => decide (c.name ≠ target))).filter
    (fun c => decide (c.dtype = Dtype.object))).map Column.name

/-- The numeric-column set computed in `create_preprocessor`
(lines 80-84): drop the target, then keep every column whose dtype is
not `object`.  Note that it is computed from dtypes alone; the selected
categorical subset is not consulted. -/
def num_cols (train : DataFrame) (target : String) : List String :=
  ((train.cols.filter (fun c => decide (c.name ≠ target))).filter
    (fun c => decide (c.dtype ≠ Dtype.object))).map Column.name

/-- The numeric-column set as the claim states it: all columns of the
cleaned train table minus the target column minus the *selected*
categorical-feature set.  Stated from the claim's words, for comparison
with `num_cols` (the set the source actually computes). -/
def claimNumCols (train : DataFrame) (target : String) (selected : List String) :
    List String :=
  (train.colNames.filter (fun n => decide (n ≠ target))).filter
    (fun n => decide (n ∉ selected))

/-- `create_output_dir` (lines 70-72): `makedirs(..., exist_ok=True)` on
`output_dir/prep_dir`. -/
def create_output_dir (outputDir : FsPath) (prep_dir : String) (fs : FS) :
    Except PErr FS :=
  makedirs fs (outputDir ++ [prep_dir]) true

/-! ## Label encoding

`get_classes` (in `utilities/data.py`) and `label_encode` (in
`utilities/preprocess.py`) are repository code not present under `src/`;
both are modelled from the spec. -/

/-- Ordered deduplication by first occurrence. -/
def uniqueLabels (ls : List String) : List String :=
  ls.foldl (fun acc a => if a ∈ acc then acc else acc ++ [a]) []

/-- Modelled from the spec: `get_classes` lives in the absent
`utilities/data.py`.  Section 4.7: a deterministic, ordered, deduplicated
label vocabulary computed from the training target column only. -/
def get_classes (train : DataFrame) (target : String) : List String :=
  uniqueLabels (targetValues train target)

/-- First index of `a` in the list, if any. -/
def indexIn : List String → String → Option Nat
  | [], _ => none
  | b :: bs, a => if a = b then some 0 else (indexIn bs a).map (· + 1)

/-- Modelled from the spec: `label_encode` lives in the absent
`utilities/preprocess.py`.  Section 4.7: maps each label to its index in
`classes`; fails (`UnknownLabelError`) when a label is absent from
`classes`. -/
def label_encode (labels classes : List String) : Except PErr (List Nat) :=
  match labels with
  | [] => .ok []
  | l :: ls =>
    match indexIn classes l with
    | none => .error .unknownLabel
    | some i =>
      match label_encode ls classes with
      | .error e => .error e
      | .ok r => .ok (i :: r)

/-! ## Transform and persist (`preprocess`, lines 95-114) -/

/-- Pandas column assignment `df[name] = vals`: overwrite in place when a
column of that name exists, else append a new (numeric) column. -/
def dfAssign (df : DataFrame) (name : String) (vals : List String) : DataFrame :=
  if df.cols.any (fun c => decide (c.name = name)) then
    { df with cols := df.cols.map (fun c =>
        if c.name = name then { c with values := vals } else c) }
  else
    { df with cols := df.cols ++ [⟨name, .numeric, vals⟩] }

/-- The output table built for one split (lines 111-113): a fresh frame
holding the split's original row index under the index-column name, then
the integer-encoded target assigned under the target name, then the
preprocessor's transform output assigned column-wise under the published
column names. -/
def build_output (part : DataFrame) (target : String) (enc : List Nat)
    (col_names : List String) (tvals : List (List String)) : DataFrame :=
  let d0 : DataFrame :=
    { index := List.range part.index.length,
      cols := [⟨index_column, .numeric, part.index.map toString⟩] }
  let d1 := dfAssign d0 target (enc.map toString)
  (col_names.zip tvals).foldl (fun d nv => dfAssign d nv.1 nv.2) d1

/-- The split loop of `preprocess` (lines 110-114): for each split in
order, encode the target (failing aborts the loop with files written so
far still on disk), build the output table and write it to the variant's
output directory under the split's filename. -/
def preprocess_splits (prepDirPath : FsPath) (col_names : List String)
    (transform : DataFrame → List (List String)) (target : String)
    (classes : List String) :
    List (String × DataFrame) → FS → FS × Option PErr
  | [], fs => (fs, none)
  | (fname, part) :: rest, fs =>
    match label_encode (targetValues part target) classes with
    | .error e => (fs, some e)
    | .ok enc =>
      preprocess_splits prepDirPath col_names transform target classes rest
        (writeFile fs (prepDirPath ++ [fname])
          (.table (build_output part target enc col_names (transform part))))

/-- `preprocess` for one variant: derive the class vocabulary from the
cleaned train split only, then process train, validation and test in
that fixed order. -/
def preprocess (prepDirPath : FsPath) (col_names : List String)
    (transform : DataFrame → List (List String)) (target : String)
    (train val test : DataFrame) (fs : FS) : FS × Option PErr :=
  preprocess_splits prepDirPath col_names transform target
    (get_classes train target)
    [(train_fname, train), (val_fname, val), (test_fname, test)] fs

/-! ## Artifact store and the full run (for the teardown/purge claims)

Airflow's XCom table is the spec's ArtifactStore: each task's return
value is stored keyed by (run identifier, task).  The terminal
`SqliteOperator` purges it; `delete_xcom_sql` lives in the absent
`constants.py` and is modelled from the spec. -/

/-- A value published to the artifact store by a stage. -/
inductive Artifact where
  | fsPath (p : FsPath)
  | pathDict (d : List (String × FsPath))
  | colList (cs : List String)
deriving DecidableEq, Repr

/-- The state a run acts on: the filesystem plus the artifact store,
whose entries are keyed by (run identifier, task). -/
structure PipeState where
  fs : FS
  store : List ((String × TaskId) × Artifact)
deriving DecidableEq, Repr

/-- Modelled from the spec: the purge executed by the terminal
`SqliteOperator` (its `delete_xcom_sql` lives in the absent
`constants.py`).  Section 4.8: purge every artifact this run published,
keyed by the run's own identifier. -/
def purge_run (store : List ((String × TaskId) × Artifact)) (runId : String) :
    List ((String × TaskId) × Artifact) :=
  store.filter (fun e => decide (e.1.1 ≠ runId))

/-- Read a CSV table back from disk (a blob or a missing file is the
spec's `UpstreamArtifactMissingError`). -/
def readTable (fs : FS) (p : FsPath) : Except PErr DataFrame :=
  match readFile fs p with
  | some (.table df) => .ok df
  | _ => .error .upstreamMissing

/-- The two terminal stages in sequence: `remove_temp_dir` (recursive
removal of the working directory, lines 117-119) followed by the
artifact purge keyed by the run's identifier. -/
def teardown (fs : FS) (store : List ((String × TaskId) × Artifact))
    (runId : String) (tempDir : FsPath) : Except PErr PipeState :=
  match rmtree fs tempDir with
  | .error e => .error e
  | .ok fs9 => .ok { fs := fs9, store := purge_run store runId }

/-- One full run of the pipeline, executed in a valid linearization of
the declared DAG.  The external collaborators are parameters: `selectFn`
is the statistical feature selector (applied to the feature table and
the categorical candidates), `factory` returns the published output
column names of the fitted preprocessor, and `trStd` / `trMm` are the
two fitted transformers (the pickle round trip is taken as the
identity). -/
def run_pipeline (runId : String) (tempDir outputDir : FsPath)
    (coliner : List String) (target : String)
    (selectFn : DataFrame → List String → List String)
    (factory : DataFrame → List String → List String → Bool → List String)
    (trStd trMm : DataFrame → List (List String))
    (rawTrain rawVal rawTest : DataFrame) (st0 : PipeState) :
    Except PErr PipeState :=
  match makedirs st0.fs tempDir false with
  | .error e => .error e
  | .ok fs1 =>
  let store1 := ((runId, TaskId.createTempDir), Artifact.fsPath tempDir) :: st0.store
  match read_data tempDir coliner rawTrain rawVal rawTest fs1 with
  | (_, .error e) => .error e
  | (fs2, .ok pdict) =>
  let store2 := ((runId, TaskId.readData), Artifact.pathDict pdict) :: store1
  match readTable fs2 (tempDir ++ [train_fname]) with
  | .error e => .error e
  | .ok train =>
  let featureTable : DataFrame :=
    { train with cols := train.cols.filter (fun c => decide (c.name ≠ target)) }
  let selected := selectFn featureTable (cat_cols train target)
  let store3 := ((runId, TaskId.selectFeatures), Artifact.colList selected) :: store2
  match create_output_dir outputDir std_dir fs2 with
  | .error e => .error e
  | .ok fs3 =>
  match create_output_dir outputDir minmax_dir fs3 with
  | .error e => .error e
  | .ok fs4 =>
  let numc := num_cols train target
  let cnStd := factory train selected numc true
  let fs5 := writeFile fs4 (outputDir ++ [std_dir, preprocessor_fname]) .blob
  let store4 := ((runId, TaskId.createPrepStd), Artifact.colList cnStd) :: store3
  let cnMm := factory train selected numc false
  let fs6 := writeFile fs5 (outputDir ++ [minmax_dir, preprocessor_fname]) .blob
  let store5 := ((runId, TaskId.createPrepMinmax), Artifact.colList cnMm) :: store4
  match readTable fs6 (tempDir ++ [val_fname]) with
  | .error e => .error e
  | .ok val =>
  match readTable fs6 (tempDir ++ [test_fname]) with
  | .error e => .error e
  | .ok test =>
  match preprocess (outputDir ++ [std_dir]) cnStd trStd target train val test fs6 with
  | (_, some e) => .error e
  | (fs7, none) =>
  match preprocess (outputDir ++ [minmax_dir]) cnMm trMm target train val test fs7 with
  | (_, some e) => .error e
  | (fs8, none) =>
  teardown fs8 store5 runId tempDir

/-- Whether a full run succeeds. -/
def pipelineOk (runId : String) (tempDir outputDir : FsPath)
    (coliner : List String) (target : String)
    (selectFn : DataFrame → List String → List String)
    (factory : DataFrame → List String → List String → Bool → List String)
    (trStd trMm : DataFrame → List (List String))
    (rawTrain rawVal rawTest : DataFrame) (st0 : PipeState) : Bool :=
  match run_pipeline runId tempDir outputDir coliner target selectFn factory
      trStd trMm rawTrain rawVal rawTest st0 with
  | .ok _ => true
  | .error _ => false

/-- The final state of a successful full run (an arbitrary empty state
when the run failed; only used under a `pipelineOk` hypothesis). -/
def finalState (runId : String) (tempDir outputDir : FsPath)
    (coliner : List String) (target : String)
    (selectFn : DataFrame → List String → List String)
    (factory : DataFrame → List String → List String → Bool → List String)
    (trStd trMm : DataFrame → List (List String))
    (rawTrain rawVal rawTest : DataFrame) (st0 : PipeState) : PipeState :=
  match run_pipeline runId tempDir outputDir coliner target selectFn factory
      trStd trMm rawTrain rawVal rawTest st0 with
  | .ok st => st
  | .error _ => { fs := { dirs := [], files := [] }, store := [] }

/-! ## Concrete tables and states used by the claim instances -/

/-- A cleaned train table with two categorical candidates; the selector
(external, spec section 4.3: returns the informative *subset* of the
candidates) may legitimately keep only one of them. -/
def c3Train : DataFrame :=
  { index := [0, 1],
    cols := [⟨"catA", .object, ["a", "b"]⟩,
             ⟨"catB", .object, ["c", "d"]⟩,
             ⟨"num1", .numeric, ["1", "2"]⟩,
             ⟨"label", .object, ["yes", "no"]⟩] }

/-- Raw split missing the listed collinear column `dup`. -/
def c5Bad : DataFrame := ⟨[0], [⟨"x", .numeric, ["1"]⟩]⟩

/-- Raw split carrying the listed collinear column `dup`. -/
def c5Good : DataFrame := ⟨[0], [⟨"dup", .object, ["a"]⟩, ⟨"x", .numeric, ["1"]⟩]⟩

/-- Cleaned train split used in concrete transform-stage runs. -/
def c7Train : DataFrame :=
  ⟨[0, 1], [⟨"churn", .object, ["yes", "no"]⟩, ⟨"tenure", .numeric, ["1", "2"]⟩]⟩

/-- Cleaned validation split used in concrete transform-stage runs. -/
def c7Val : DataFrame :=
  ⟨[0], [⟨"churn", .object, ["no"]⟩, ⟨"tenure", .numeric, ["3"]⟩]⟩

/-- Cleaned test split whose labels all appear in the train split. -/
def c7Test : DataFrame :=
  ⟨[0], [⟨"churn", .object, ["yes"]⟩, ⟨"tenure", .numeric, ["4"]⟩]⟩

/-- The target column of the table stored at `p`, when a table is there. -/
def fileTargetCol (fs : FS) (p : FsPath) (tg : String) : Option (List String) :=
  match readFile fs p with
  | some (.table df) => some (targetValues df tg)
  | _ => none

/-- Cleaned test split carrying the label `maybe`, absent from the
training vocabulary. -/
def c8Test : DataFrame :=
  ⟨[0], [⟨"churn", .object, ["maybe"]⟩, ⟨"tenure", .numeric, ["4"]⟩]⟩

/-- Raw train split for the concrete full run. -/
def c4Train : DataFrame :=
  ⟨[0, 1], [⟨"dup", .object, ["x", "x"]⟩, ⟨"plan", .object, ["a", "b"]⟩,
            ⟨"tenure", .numeric, ["1", "2"]⟩, ⟨"churn", .object, ["yes", "no"]⟩]⟩

/-- Raw validation split for the concrete full run. -/
def c4Val : DataFrame :=
  ⟨[0], [⟨"dup", .object, ["x"]⟩, ⟨"plan", .object, ["a"]⟩,
         ⟨"tenure", .numeric, ["3"]⟩, ⟨"churn", .object, ["no"]⟩]⟩

/-- Raw test split for the concrete full run. -/
def c4Test : DataFrame :=
  ⟨[0], [⟨"dup", .object, ["x"]⟩, ⟨"plan", .object, ["b"]⟩,
         ⟨"tenure", .numeric, ["4"]⟩, ⟨"churn", .object, ["yes"]⟩]⟩

/-- Initial state holding a leftover artifact of an earlier run. -/
def c4St0 : PipeState := ⟨⟨[], []⟩, [(("run0", .readData), .fsPath ["old"])]⟩

/-! ## Claims about the dependency graph (C1, C2) -/

/-- C2: the declared stage-dependency relation satisfies the spec's
ordering: cleaning precedes feature selection and both output-directory
preparations; each output-directory preparation precedes its variant's
fit stage; each fit precedes its variant's transform; both transforms
precede working-directory teardown; and teardown precedes the
artifact-store purge. -/
theorem dag_ordering_matches_spec :
    (TaskId.readData, TaskId.selectFeatures) ∈ dagEdges ∧
    (TaskId.readData, TaskId.createStdDir) ∈ dagEdges ∧
    (TaskId.readData, TaskId.createMinmaxDir) ∈ dagEdges ∧
    (TaskId.createStdDir, TaskId.createPrepStd) ∈ dagEdges ∧
    (TaskId.createMinmaxDir, TaskId.createPrepMinmax) ∈ dagEdges ∧
    (TaskId.createPrepStd, TaskId.preprocessStd) ∈ dagEdges ∧
    (TaskId.createPrepMinmax, TaskId.preprocessMinmax) ∈ dagEdges ∧
    (TaskId.preprocessStd, TaskId.removeTempDir) ∈ dagEdges ∧
    (TaskId.preprocessMinmax, TaskId.removeTempDir) ∈ dagEdges ∧
    (TaskId.removeTempDir, TaskId.cleanup) ∈ dagEdges := by
  decide

/-- C1 counterexample: with the cleaning stage (`read_data`) failing and
every other task healthy, neither the working-directory teardown nor the
artifact purge executes — under the default `all_success` trigger rule
(no task in the source sets a `trigger_rule`), cleanup is *not*
unconditional with respect to upstream outcome. -/
theorem cleanup_not_unconditional_cex :
    executes (fun t => decide (t = TaskId.readData)) TaskId.removeTempDir = false ∧
    executes (fun t => decide (t = TaskId.readData)) TaskId.cleanup = false := by
  decide

/-- C1 amended: teardown and purge are ordinary `all_success` stages:
teardown executes exactly when both transform stages ran and succeeded,
and the purge executes exactly when teardown ran and succeeded; they are
skipped whenever an upstream stage failed.  (A feature-selection failure
alone does not block them, since `select_features` has no declared edge
into the teardown chain.) -/
theorem cleanup_requires_upstream_success (fails : TaskId → Bool) :
    executes fails TaskId.removeTempDir
      = (taskOk fails TaskId.preprocessStd && taskOk fails TaskId.preprocessMinmax) ∧
    executes fails TaskId.cleanup = taskOk fails TaskId.removeTempDir ∧
    executes (fun t => decide (t = TaskId.selectFeatures)) TaskId.removeTempDir = true := by
  refine ⟨?_, ?_, by decide⟩
  · have hp : parentsOf TaskId.removeTempDir
        = [TaskId.preprocessStd, TaskId.preprocessMinmax] := rfl
    show (parentsOf TaskId.removeTempDir).all (taskOk fails) = _
    rw [hp]
    simp [List.all_cons, List.all_nil]
  · have hp : parentsOf TaskId.cleanup = [TaskId.removeTempDir] := rfl
    show (parentsOf TaskId.cleanup).all (taskOk fails) = _
    rw [hp]
    simp [List.all_cons, List.all_nil]

/-! ## Basic filesystem lemmas -/

theorem readFile_writeFile_same (fs : FS) (p : FsPath) (d : FileData) :
    readFile (writeFile fs p d) p = some d := by
  unfold readFile writeFile
  rw [List.find?_cons_of_pos _ (by simp)]

theorem readFile_writeFile_ne (fs : FS) (p q : FsPath) (d : FileData)
    (h : q ≠ p) : readFile (writeFile fs q d) p = readFile fs p := by
  unfold readFile writeFile
  rw [List.find?_cons_of_neg _ (by simp [h])]

theorem append_single_ne (dir : FsPath) (a b : String) (h : a ≠ b) :
    dir ++ [a] ≠ dir ++ [b] := by
  intro hc
  exact h (by simpa using List.append_cancel_left hc)

/-! ## Claim C9: output-directory preparation is idempotent -/

/-- C9: for every output root and variant directory name, running
`create_output_dir` when the directory already exists does not fail and
returns the filesystem unchanged (so existing contents are untouched). -/
theorem create_output_dir_idempotent (outputDir : FsPath) (prep_dir : String)
    (fs : FS) (h : outputDir ++ [prep_dir] ∈ fs.dirs) :
    create_output_dir outputDir prep_dir fs = .ok fs := by
  simp [create_output_dir, makedirs, h]

/-- Witness for C9 at a concrete filesystem that already holds the
variant directory. -/
theorem create_output_dir_idempotent_witness :
    (["out"] ++ ["standardized"] : FsPath)
        ∈ (FS.mk [["out", "standardized"]] [(["out", "standardized", "a.csv"], .blob)]).dirs ∧
    create_output_dir ["out"] "standardized"
        (FS.mk [["out", "standardized"]] [(["out", "standardized", "a.csv"], .blob)])
      = .ok (FS.mk [["out", "standardized"]] [(["out", "standardized", "a.csv"], .blob)]) :=
  ⟨by decide,
   create_output_dir_idempotent ["out"] "standardized"
     (FS.mk [["out", "standardized"]] [(["out", "standardized", "a.csv"], .blob)])
     (by decide)⟩

/-! ## Claim C3: the numeric-column set used for fitting -/

/-- C3 counterexample: when the selector keeps only `catA` out of the
candidates `[catA, catB]`, the numeric-column set the fit stage computes
(`num_cols`, from dtypes alone) is `[num1]`, whereas the claim's formula
"all columns minus target minus the selected categorical-feature set"
would give `[catB, num1]`.  The two differ — `catB` is in neither the
selected set nor the set passed to the fit. -/
theorem num_cols_ignores_selected_cex :
    claimNumCols c3Train "label" ["catA"] ≠ num_cols c3Train "label" ∧
    "catB" ∈ claimNumCols c3Train "label" ["catA"] ∧
    "catB" ∉ num_cols c3Train "label" ∧
    "catA" ∈ cat_cols c3Train "label" := by
  decide

/-- C3 amended: the numeric-column set passed to the preprocessor fit is
the complement, within the non-target columns of the cleaned train
table, of the dtype-derived categorical *candidate* set (the same
object-typed candidate set `select_features` starts from) — together
they are a permutation of all non-target columns.  It is computed from
column dtypes alone, independent of the statistically selected subset. -/
theorem num_cols_dtype_complement (df : DataFrame) (target : String) :
    List.Perm (cat_cols df target ++ num_cols df target)
      ((df.cols.filter (fun c => decide (c.name ≠ target))).map Column.name) := by
  unfold cat_cols num_cols
  rw [← List.map_append]
  refine List.Perm.map Column.name ?_
  have hq : (fun c : Column => decide (c.dtype ≠ Dtype.object))
      = (fun c : Column => !(decide (c.dtype = Dtype.object))) := by
    funext c
    simp [decide_not]
  rw [hq]
  exact List.filter_append_perm _ _

/-! ## Claim C5: static collinear-column drop is strict -/

theorem dropColumns_absent (df : DataFrame) (l : List String)
    (h : ∃ c ∈ l, c ∉ df.colNames) : dropColumns df l = .error .schemaMismatch := by
  have hn : ¬ ∀ c ∈ l, c ∈ df.colNames := by
    obtain ⟨c, hc, hnc⟩ := h
    exact fun hall => hnc (hall c hc)
  unfold dropColumns
  rw [if_neg hn]

theorem dropColumns_error_eq (df : DataFrame) (l : List String) (e : PErr)
    (h : dropColumns df l = .error e) : e = .schemaMismatch := by
  unfold dropColumns at h
  split at h
  · cases h
  · injection h with h1
    exact h1.symm

theorem dropColumns_ok_disjoint (df : DataFrame) (l : List String)
    (out : DataFrame) (h : dropColumns df l = .ok out) :
    ∀ c ∈ l, c ∉ out.colNames := by
  unfold dropColumns at h
  split at h
  · injection h with h1
    subst h1
    intro c hc hmem
    simp only [DataFrame.colNames, List.mem_map] at hmem
    obtain ⟨col, hcolmem, hname⟩ := hmem
    rw [List.mem_filter] at hcolmem
    have hno := hcolmem.2
    simp only [decide_eq_true_eq] at hno
    exact hno (by rwa [hname])
  · cases h

theorem read_data_loop_absent_error (tempDir : FsPath) (coliner : List String) :
    ∀ (raws : List (String × String × DataFrame)) (fs : FS),
      (∃ x ∈ raws, ∃ c ∈ coliner, c ∉ x.2.2.colNames) →
      (read_data_loop tempDir coliner raws fs).2 = .error .schemaMismatch := by
  intro raws
  induction raws with
  | nil =>
    intro fs h
    simp at h
  | cons hd rest ih =>
    obtain ⟨fname, key, raw⟩ := hd
    intro fs h
    simp only [read_data_loop]
    split
    · rename_i e heq
      rw [dropColumns_error_eq raw coliner e heq]
    · rename_i cleaned heq
      have hrest : ∃ x ∈ rest, ∃ c ∈ coliner, c ∉ x.2.2.colNames := by
        obtain ⟨x, hx, hc⟩ := h
        rcases List.mem_cons.mp hx with rfl | hxr
        · rw [dropColumns_absent raw coliner hc] at heq
          cases heq
        · exact ⟨x, hxr, hc⟩
      have hres := ih (writeFile fs (tempDir ++ [fname]) (.table cleaned)) hrest
      split
      · rename_i fs2 e heq2
        rw [heq2] at hres
        exact hres
      · rename_i fs2 d0 heq2
        rw [heq2] at hres
        exact absurd hres (by simp)

theorem read_data_loop_writes_clean (tempDir : FsPath) (coliner : List String)
    (raws : List (String × String × DataFrame)) :
    ∀ (fs fs' : FS) (d : List (String × FsPath)),
      read_data_loop tempDir coliner raws fs = (fs', .ok d) →
      ∀ q : FsPath, readFile fs' q = readFile fs q ∨
        ∃ df, readFile fs' q = some (.table df) ∧ ∀ c ∈ coliner, c ∉ df.colNames := by
  induction raws with
  | nil =>
    intro fs fs' d h q
    simp only [read_data_loop, Prod.mk.injEq] at h
    left
    rw [← h.1]
  | cons hd rest ih =>
    obtain ⟨fname, key, raw⟩ := hd
    intro fs fs' d h q
    simp only [read_data_loop] at h
    split at h
    · simp at h
    · rename_i cleaned heq
      split at h
      · simp at h
      · rename_i fs2 d0 heq2
        simp only [Prod.mk.injEq] at h
        obtain ⟨hfs, -⟩ := h
        subst hfs
        rcases ih _ _ _ heq2 q with hsame | ⟨df, hr, hdisj⟩
        · by_cases hq : tempDir ++ [fname] = q
          · right
            refine ⟨cleaned, ?_, dropColumns_ok_disjoint raw coliner cleaned heq⟩
            rw [hsame, ← hq]
            exact readFile_writeFile_same ..
          · left
            rw [hsame]
            exact readFile_writeFile_ne _ _ _ _ hq
        · exact Or.inr ⟨df, hr, hdisj⟩

theorem read_data_loop_member_clean (tempDir : FsPath) (coliner : List String)
    (raws : List (String × String × DataFrame)) :
    ∀ (fs fs' : FS) (d : List (String × FsPath)),
      read_data_loop tempDir coliner raws fs = (fs', .ok d) →
      ∀ x ∈ raws, ∃ df, readFile fs' (tempDir ++ [x.1]) = some (.table df) ∧
        ∀ c ∈ coliner, c ∉ df.colNames := by
  induction raws with
  | nil =>
    intro fs fs' d h x hx
    cases hx
  | cons hd rest ih =>
    obtain ⟨fname, key, raw⟩ := hd
    intro fs fs' d h x hx
    simp only [read_data_loop] at h
    split at h
    · simp at h
    · rename_i cleaned heq
      split at h
      · simp at h
      · rename_i fs2 d0 heq2
        simp only [Prod.mk.injEq] at h
        obtain ⟨hfs, -⟩ := h
        subst hfs
        rcases List.mem_cons.mp hx with rfl | hxr
        · rcases read_data_loop_writes_clean tempDir coliner rest _ _ _ heq2
              (tempDir ++ [fname]) with hsame | hex
          · exact ⟨cleaned, by rw [hsame]; exact readFile_writeFile_same ..,
              dropColumns_ok_disjoint raw coliner cleaned heq⟩
          · exact hex
        · exact ih _ _ _ heq2 x hxr

/-- C5: for every split, if any column of the static collinear drop list
is absent from that split's raw CSV, the ingestion-and-cleaning stage
fails with the schema-mismatch error (pandas `drop` with the default
`errors="raise"`), never a silent skip; and whenever the stage succeeds,
the cleaned table it wrote to the working directory for that split
contains none of the listed collinear columns. -/
theorem read_data_drop_strict (tempDir : FsPath) (coliner : List String)
    (rawTrain rawVal rawTest : DataFrame) (fs : FS) (x : String × String × DataFrame)
    (hmem : x ∈ [(train_fname, "train", rawTrain), (val_fname, "validation", rawVal),
                 (test_fname, "test", rawTest)]) :
    ((∃ c ∈ coliner, c ∉ x.2.2.colNames) →
        (read_data tempDir coliner rawTrain rawVal rawTest fs).2
          = .error .schemaMismatch) ∧
    (∀ fs' d, read_data tempDir coliner rawTrain rawVal rawTest fs = (fs', .ok d) →
        ∃ df, readFile fs' (tempDir ++ [x.1]) = some (.table df) ∧
          ∀ c ∈ coliner, c ∉ df.colNames) := by
  constructor
  · intro hc
    exact read_data_loop_absent_error tempDir coliner _ fs ⟨x, hmem, hc⟩
  · intro fs' d h
    exact read_data_loop_member_clean tempDir coliner _ fs fs' d h x hmem

/-- Witness for C5: with `dup` configured for dropping but absent from
the raw test split, the stage fails with the schema-mismatch error. -/
theorem read_data_drop_strict_witness :
    ((test_fname, "test", c5Bad) ∈ [(train_fname, "train", c5Good),
        (val_fname, "validation", c5Good), (test_fname, "test", c5Bad)]) ∧
    (read_data ["tmp"] ["dup"] c5Good c5Good c5Bad ⟨[], []⟩).2
      = .error .schemaMismatch :=
  ⟨by decide,
   (read_data_drop_strict ["tmp"] ["dup"] c5Good c5Good c5Bad ⟨[], []⟩
       (test_fname, "test", c5Bad) (by decide)).1 ⟨"dup", by decide, by decide⟩⟩

/-! ## Structure of the per-split output table -/

theorem dfAssign_index (df : DataFrame) (n : String) (v : List String) :
    (dfAssign df n v).index = df.index := by
  unfold dfAssign
  split <;> rfl

theorem foldl_dfAssign_index (ps : List (String × List String)) :
    ∀ df : DataFrame,
      (ps.foldl (fun d nv => dfAssign d nv.1 nv.2) df).index = df.index := by
  induction ps with
  | nil => intro df; rfl
  | cons p rest ih =>
    intro df
    rw [List.foldl_cons, ih, dfAssign_index]

theorem dfAssign_fresh_cols (df : DataFrame) (n : String) (v : List String)
    (h : ∀ c ∈ df.cols, c.name ≠ n) :
    (dfAssign df n v).cols = df.cols ++ [⟨n, .numeric, v⟩] := by
  unfold dfAssign
  rw [if_neg]
  intro hany
  obtain ⟨c, hc, hcn⟩ := List.any_eq_true.mp hany
  simp only [decide_eq_true_eq] at hcn
  exact h c hc hcn

theorem zip_fst_sublist :
    ∀ (l1 : List String) (l2 : List (List String)),
      List.Sublist ((l1.zip l2).map Prod.fst) l1
  | [], _ => by simp
  | _ :: _, [] => by simp
  | a :: l1, b :: l2 => by
    simp only [List.zip_cons_cons, List.map_cons]
    exact List.Sublist.cons₂ a (zip_fst_sublist l1 l2)

theorem foldl_dfAssign_cols (ps : List (String × List String)) :
    ∀ df : DataFrame,
      (∀ p ∈ ps, ∀ c ∈ df.cols, c.name ≠ p.1) →
      (ps.map Prod.fst).Nodup →
      (ps.foldl (fun d nv => dfAssign d nv.1 nv.2) df).cols
        = df.cols ++ ps.map (fun nv => (⟨nv.1, Dtype.numeric, nv.2⟩ : Column)) := by
  induction ps with
  | nil =>
    intro df _ _
    simp
  | cons p rest ih =>
    obtain ⟨n, v⟩ := p
    intro df hfresh hnd
    simp only [List.map_cons, List.nodup_cons] at hnd
    obtain ⟨hnmem, hndrest⟩ := hnd
    have h0 : ∀ c ∈ df.cols, c.name ≠ n := fun c hc => hfresh (n, v) (by simp) c hc
    rw [List.foldl_cons]
    have hfresh' : ∀ q ∈ rest, ∀ c ∈ (dfAssign df n v).cols, c.name ≠ q.1 := by
      intro q hq c hc
      rw [dfAssign_fresh_cols df n v h0] at hc
      rcases List.mem_append.mp hc with hc1 | hc2
      · exact hfresh q (by simp [hq]) c hc1
      · have hcv : c = ⟨n, Dtype.numeric, v⟩ := by simpa using hc2
        rw [hcv]
        show n ≠ q.1
        intro hcn
        apply hnmem
        rw [hcn]
        exact List.mem_map_of_mem Prod.fst hq
    rw [ih (dfAssign df n v) hfresh' hndrest, dfAssign_fresh_cols df n v h0,
        List.append_assoc, List.singleton_append, List.map_cons]

theorem build_output_index (part : DataFrame) (tg : String) (enc : List Nat)
    (cn : List String) (tvals : List (List String)) :
    (build_output part tg enc cn tvals).index = List.range part.index.length := by
  simp only [build_output]
  rw [foldl_dfAssign_index, dfAssign_index]

theorem build_output_cols (part : DataFrame) (tg : String) (enc : List Nat)
    (cn : List String) (tvals : List (List String))
    (h1 : tg ≠ index_column) (h2 : index_column ∉ cn) (h3 : tg ∉ cn)
    (h4 : cn.Nodup) :
    (build_output part tg enc cn tvals).cols
      = ⟨index_column, .numeric, part.index.map toString⟩ ::
        ⟨tg, .numeric, enc.map toString⟩ ::
        ((cn.zip tvals).map (fun nv => (⟨nv.1, Dtype.numeric, nv.2⟩ : Column))) := by
  simp only [build_output]
  have hd0 : ∀ c ∈ [(⟨index_column, Dtype.numeric, part.index.map toString⟩ : Column)],
      c.name ≠ tg := by
    intro c hc
    have hcv : c = ⟨index_column, Dtype.numeric, part.index.map toString⟩ := by simpa using hc
    rw [hcv]
    exact Ne.symm h1
  have hd1 := dfAssign_fresh_cols
    ⟨List.range part.index.length, [⟨index_column, Dtype.numeric, part.index.map toString⟩]⟩
    tg (enc.map toString) hd0
  have hfresh : ∀ p ∈ cn.zip tvals,
      ∀ c ∈ (dfAssign
        ⟨List.range part.index.length, [⟨index_column, Dtype.numeric, part.index.map toString⟩]⟩
        tg (enc.map toString)).cols, c.name ≠ p.1 := by
    intro p hp c hc
    have hp1 : p.1 ∈ cn := by
      obtain ⟨a, b⟩ := p
      exact (List.of_mem_zip hp).1
    rw [hd1] at hc
    rcases List.mem_append.mp hc with hc1 | hc2
    · have hcv : c = ⟨index_column, Dtype.numeric, part.index.map toString⟩ := by simpa using hc1
      rw [hcv]
      show index_column ≠ p.1
      intro hcn
      exact h2 (by rwa [← hcn] at hp1)
    · have hcv : c = ⟨tg, Dtype.numeric, enc.map toString⟩ := by simpa using hc2
      rw [hcv]
      show tg ≠ p.1
      intro hcn
      exact h3 (by rwa [← hcn] at hp1)
  have hnd : ((cn.zip tvals).map Prod.fst).Nodup :=
    List.Nodup.sublist (zip_fst_sublist cn tvals) h4
  rw [foldl_dfAssign_cols (cn.zip tvals) _ hfresh hnd, hd1]
  rfl

theorem build_output_eq (part : DataFrame) (tg : String) (enc : List Nat)
    (cn : List String) (tvals : List (List String))
    (h1 : tg ≠ index_column) (h2 : index_column ∉ cn) (h3 : tg ∉ cn)
    (h4 : cn.Nodup) :
    build_output part tg enc cn tvals
      = { index := List.range part.index.length,
          cols := ⟨index_column, .numeric, part.index.map toString⟩ ::
                  ⟨tg, .numeric, enc.map toString⟩ ::
                  ((cn.zip tvals).map (fun nv => (⟨nv.1, Dtype.numeric, nv.2⟩ : Column))) } :=
  DataFrame.ext (build_output_index part tg enc cn tvals)
    (build_output_cols part tg enc cn tvals h1 h2 h3 h4)

theorem targetValues_build_output (part : DataFrame) (tg : String) (enc : List Nat)
    (cn : List String) (tvals : List (List String))
    (h1 : tg ≠ index_column) (h2 : index_column ∉ cn) (h3 : tg ∉ cn)
    (h4 : cn.Nodup) :
    targetValues (build_output part tg enc cn tvals) tg = enc.map toString := by
  unfold targetValues
  rw [build_output_cols part tg enc cn tvals h1 h2 h3 h4]
  rw [List.find?_cons_of_neg _ (by simpa using Ne.symm h1)]
  rw [List.find?_cons_of_pos _ (by simp)]

/-! ## Behaviour of the transform-and-persist loop -/

theorem preprocess_splits_preserve (pd : FsPath) (cn : List String)
    (tr : DataFrame → List (List String)) (tg : String) (cls : List String)
    (parts : List (String × DataFrame)) :
    ∀ (fs : FS) (q : FsPath),
      (∀ fname ∈ parts.map Prod.fst, pd ++ [fname] ≠ q) →
      readFile (preprocess_splits pd cn tr tg cls parts fs).1 q = readFile fs q := by
  induction parts with
  | nil =>
    intro fs q _
    rfl
  | cons hd rest ih =>
    obtain ⟨fname, part⟩ := hd
    intro fs q h
    simp only [preprocess_splits]
    split
    · rfl
    · rw [ih _ q (fun f hf => h f (by simp [hf]))]
      exact readFile_writeFile_ne _ _ _ _ (h fname (by simp))

theorem preprocess_splits_none_lookup (pd : FsPath) (cn : List String)
    (tr : DataFrame → List (List String)) (tg : String) (cls : List String)
    (parts : List (String × DataFrame)) :
    ∀ (fs fs' : FS),
      (parts.map Prod.fst).Nodup →
      preprocess_splits pd cn tr tg cls parts fs = (fs', none) →
      ∀ fname part, (fname, part) ∈ parts →
        ∀ enc, label_encode (targetValues part tg) cls = .ok enc →
          readFile fs' (pd ++ [fname])
            = some (.table (build_output part tg enc cn (tr part))) := by
  induction parts with
  | nil =>
    intro fs fs' _ h fname part hmem
    cases hmem
  | cons hd rest ih =>
    obtain ⟨f0, p0⟩ := hd
    intro fs fs' hnd h fname part hmem enc henc
    simp only [List.map_cons, List.nodup_cons] at hnd
    obtain ⟨hf0, hndrest⟩ := hnd
    simp only [preprocess_splits] at h
    split at h
    · simp at h
    · rename_i enc0 heq
      rcases List.mem_cons.mp hmem with hpair | hmemr
      · rw [Prod.mk.injEq] at hpair
        obtain ⟨rfl, rfl⟩ := hpair
        rw [heq] at henc
        injection henc with henc'
        subst henc'
        have hpres := preprocess_splits_preserve pd cn tr tg cls rest
          (writeFile fs (pd ++ [fname]) (.table (build_output part tg enc0 cn (tr part))))
          (pd ++ [fname])
          (fun f hf => append_single_ne pd f fname (fun hff => hf0 (hff ▸ hf)))
        rw [h] at hpres
        rw [hpres]
        exact readFile_writeFile_same ..
      · exact ih _ _ hndrest h fname part hmemr enc henc

/-! ## Claim C7: shape and placement of the transform output -/

/-- C7: for every split and every variant (any output directory, column
names and fitted transformer), a successful transform stage writes to
the variant's output directory, under the split's original filename, a
table whose first column holds the split's original row index, whose
second column is the integer-encoded target, and whose remaining columns
are the preprocessor's transform output under the published column
names.  (The freshness hypotheses say the published names do not collide
with the index and target columns, which pandas column assignment would
otherwise overwrite.) -/
theorem preprocess_output_shape (pd : FsPath) (cn : List String)
    (tr : DataFrame → List (List String)) (tg : String)
    (train val test : DataFrame) (fs fs' : FS)
    (hrun : preprocess pd cn tr tg train val test fs = (fs', none))
    (h1 : tg ≠ index_column) (h2 : index_column ∉ cn) (h3 : tg ∉ cn)
    (h4 : cn.Nodup) (fname : String) (part : DataFrame)
    (hmem : (fname, part) ∈ [(train_fname, train), (val_fname, val), (test_fname, test)])
    (enc : List Nat)
    (henc : label_encode (targetValues part tg) (get_classes train tg) = .ok enc) :
    readFile fs' (pd ++ [fname]) = some (.table
      { index := List.range part.index.length,
        cols := ⟨index_column, .numeric, part.index.map toString⟩ ::
                ⟨tg, .numeric, enc.map toString⟩ ::
                ((cn.zip (tr part)).map (fun nv => (⟨nv.1, Dtype.numeric, nv.2⟩ : Column))) }) := by
  have hl := preprocess_splits_none_lookup pd cn tr tg (get_classes train tg) _ fs fs'
    (by simp only [List.map_cons, List.map_nil]; decide) hrun fname part hmem enc henc
  rw [hl, build_output_eq part tg enc cn (tr part) h1 h2 h3 h4]

/-- Witness for C7 on a concrete successful run of the standardized
variant. -/
theorem preprocess_output_shape_witness :
    readFile (preprocess ["out", "standardized"] ["f1"] (fun _ => [["7", "8"]])
        "churn" c7Train c7Val c7Test ⟨[], []⟩).1
      (["out", "standardized"] ++ [train_fname]) = some (.table
      { index := List.range c7Train.index.length,
        cols := ⟨index_column, .numeric, c7Train.index.map toString⟩ ::
                ⟨"churn", .numeric, ([0, 1] : List Nat).map toString⟩ ::
                ((["f1"].zip ((fun (_ : DataFrame) => [["7", "8"]]) c7Train)).map
                  (fun nv => (⟨nv.1, Dtype.numeric, nv.2⟩ : Column))) }) :=
  preprocess_output_shape ["out", "standardized"] ["f1"] (fun _ => [["7", "8"]])
    "churn" c7Train c7Val c7Test ⟨[], []⟩ _ rfl (by decide) (by decide) (by decide)
    (by decide) train_fname c7Train (by decide) [0, 1] rfl

/-! ## Claim C6: one label vocabulary shared by both variants -/

/-- C6: the label vocabulary is `get_classes` of the cleaned train split
only, and both variants' transform stages use that same vocabulary: for
every split, whatever output directories, column names and transformers
the two variants use, the encoded target column written by variant A
equals the one written by variant B — the same label always maps to the
same integer in both variant outputs. -/
theorem shared_label_vocabulary (pdA pdB : FsPath) (cnA cnB : List String)
    (trA trB : DataFrame → List (List String)) (tg : String)
    (train val test : DataFrame) (fsA fsB fsA' fsB' : FS)
    (hA : preprocess pdA cnA trA tg train val test fsA = (fsA', none))
    (hB : preprocess pdB cnB trB tg train val test fsB = (fsB', none))
    (h1 : tg ≠ index_column)
    (h2A : index_column ∉ cnA) (h3A : tg ∉ cnA) (h4A : cnA.Nodup)
    (h2B : index_column ∉ cnB) (h3B : tg ∉ cnB) (h4B : cnB.Nodup)
    (fname : String) (part : DataFrame)
    (hmem : (fname, part) ∈ [(train_fname, train), (val_fname, val), (test_fname, test)])
    (enc : List Nat)
    (henc : label_encode (targetValues part tg) (get_classes train tg) = .ok enc) :
    fileTargetCol fsA' (pdA ++ [fname]) tg = some (enc.map toString) ∧
    fileTargetCol fsB' (pdB ++ [fname]) tg = some (enc.map toString) := by
  have hlA := preprocess_splits_none_lookup pdA cnA trA tg (get_classes train tg) _ fsA fsA'
    (by simp only [List.map_cons, List.map_nil]; decide) hA fname part hmem enc henc
  have hlB := preprocess_splits_none_lookup pdB cnB trB tg (get_classes train tg) _ fsB fsB'
    (by simp only [List.map_cons, List.map_nil]; decide) hB fname part hmem enc henc
  constructor
  · unfold fileTargetCol
    rw [hlA]
    show some (targetValues (build_output part tg enc cnA (trA part)) tg) = _
    rw [targetValues_build_output part tg enc cnA (trA part) h1 h2A h3A h4A]
  · unfold fileTargetCol
    rw [hlB]
    show some (targetValues (build_output part tg enc cnB (trB part)) tg) = _
    rw [targetValues_build_output part tg enc cnB (trB part) h1 h2B h3B h4B]

/-- Witness for C6: a concrete standardized run and a concrete min-max
run (different directories, column names and transformers) store the
same encoded target column for the validation split. -/
theorem shared_label_vocabulary_witness :
    fileTargetCol (preprocess ["out", "standardized"] ["f1"] (fun _ => [["7", "8"]])
        "churn" c7Train c7Val c7Test ⟨[], []⟩).1
      (["out", "standardized"] ++ [val_fname]) "churn" = some (([1] : List Nat).map toString) ∧
    fileTargetCol (preprocess ["out", "minmax"] ["g1", "g2"]
        (fun _ => [["5"], ["6"]]) "churn" c7Train c7Val c7Test ⟨[], []⟩).1
      (["out", "minmax"] ++ [val_fname]) "churn" = some (([1] : List Nat).map toString) :=
  shared_label_vocabulary ["out", "standardized"] ["out", "minmax"] ["f1"] ["g1", "g2"]
    (fun _ => [["7", "8"]]) (fun _ => [["5"], ["6"]]) "churn" c7Train c7Val c7Test
    ⟨[], []⟩ ⟨[], []⟩ _ _ rfl rfl (by decide) (by decide) (by decide) (by decide)
    (by decide) (by decide) (by decide) val_fname c7Val (by decide) [1] rfl

/-! ## Claim C8: an unknown test label aborts before the test file -/

/-- C8: on a run whose test split carries a target label absent from the
training split's vocabulary, the variant's transform stage fails with
the unknown-label error and no output file is written for the test
split. -/
theorem unknown_label_blocks_test_output :
    (preprocess ["out", "standardized"] ["f1"] (fun _ => [["7"]]) "churn"
        c7Train c7Val c8Test ⟨[], []⟩).2 = some .unknownLabel ∧
    readFile (preprocess ["out", "standardized"] ["f1"] (fun _ => [["7"]]) "churn"
        c7Train c7Val c8Test ⟨[], []⟩).1
      (["out", "standardized"] ++ [test_fname]) = none := by
  decide

/-! ## Claim C10: the transform stage is not atomic on error -/

/-- C10: splits are processed in the fixed order train, validation,
test, and each split's output file is written before the next split is
encoded; hence when label encoding fails on the test split, the stage
result carries that error while the variant's output directory already
holds the freshly written train and validation output files. -/
theorem transform_splits_not_atomic (pd : FsPath) (cn : List String)
    (tr : DataFrame → List (List String)) (tg : String)
    (train val test : DataFrame) (fs : FS) (encT encV : List Nat) (e : PErr)
    (hT : label_encode (targetValues train tg) (get_classes train tg) = .ok encT)
    (hV : label_encode (targetValues val tg) (get_classes train tg) = .ok encV)
    (hE : label_encode (targetValues test tg) (get_classes train tg) = .error e) :
    (preprocess pd cn tr tg train val test fs).2 = some e ∧
    readFile (preprocess pd cn tr tg train val test fs).1 (pd ++ [train_fname])
      = some (.table (build_output train tg encT cn (tr train))) ∧
    readFile (preprocess pd cn tr tg train val test fs).1 (pd ++ [val_fname])
      = some (.table (build_output val tg encV cn (tr val))) := by
  have hcalc : preprocess pd cn tr tg train val test fs
      = (writeFile (writeFile fs (pd ++ [train_fname])
            (.table (build_output train tg encT cn (tr train))))
          (pd ++ [val_fname]) (.table (build_output val tg encV cn (tr val))), some e) := by
    unfold preprocess
    simp only [preprocess_splits, hT, hV, hE]
  rw [hcalc]
  refine ⟨rfl, ?_, ?_⟩
  · show readFile (writeFile _ (pd ++ [val_fname]) _) (pd ++ [train_fname]) = _
    rw [readFile_writeFile_ne _ _ _ _ (append_single_ne pd val_fname train_fname (by decide))]
    exact readFile_writeFile_same ..
  · exact readFile_writeFile_same ..

/-- Witness for C10 on a concrete run whose test split carries an
unknown label: the error surfaces and the train and validation outputs
are already on disk. -/
theorem transform_splits_not_atomic_witness :
    (preprocess ["o", "minmax"] ["f1"] (fun _ => [["5"]]) "churn"
        c7Train c7Val c8Test ⟨[], []⟩).2 = some PErr.unknownLabel ∧
    readFile (preprocess ["o", "minmax"] ["f1"] (fun _ => [["5"]]) "churn"
        c7Train c7Val c8Test ⟨[], []⟩).1 (["o", "minmax"] ++ [train_fname])
      = some (.table (build_output c7Train "churn" [0, 1] ["f1"]
          ((fun (_ : DataFrame) => [["5"]]) c7Train))) ∧
    readFile (preprocess ["o", "minmax"] ["f1"] (fun _ => [["5"]]) "churn"
        c7Train c7Val c8Test ⟨[], []⟩).1 (["o", "minmax"] ++ [val_fname])
      = some (.table (build_output c7Val "churn" [1] ["f1"]
          ((fun (_ : DataFrame) => [["5"]]) c7Val))) :=
  transform_splits_not_atomic ["o", "minmax"] ["f1"] (fun _ => [["5"]]) "churn"
    c7Train c7Val c8Test ⟨[], []⟩ [0, 1] [1] PErr.unknownLabel
    rfl rfl rfl

/-! ## Claim C4: teardown and purge after a successful run -/

theorem rmtree_ok (fs fs' : FS) (d : FsPath) (h : rmtree fs d = .ok fs') :
    d ∉ fs'.dirs ∧ ∀ pf ∈ fs'.files, d.isPrefixOf pf.1 = false := by
  unfold rmtree at h
  split at h
  · injection h with h1
    subst h1
    constructor
    · intro hd
      rw [List.mem_filter] at hd
      have h2 := hd.2
      have h3 : d.isPrefixOf d = true := List.isPrefixOf_iff_prefix.mpr (List.prefix_refl d)
      rw [h3] at h2
      cases h2
    · intro pf hpf
      rw [List.mem_filter] at hpf
      simpa using hpf.2
  · cases h

theorem teardown_ok (fs : FS) (store : List ((String × TaskId) × Artifact))
    (runId : String) (tempDir : FsPath) (st : PipeState)
    (h : teardown fs store runId tempDir = .ok st) :
    tempDir ∉ st.fs.dirs ∧
    (∀ pf ∈ st.fs.files, tempDir.isPrefixOf pf.1 = false) ∧
    (∀ t a, ((runId, t), a) ∉ st.store) ∧
    (∀ e ∈ store, e.1.1 ≠ runId → e ∈ st.store) := by
  unfold teardown at h
  split at h
  · cases h
  · rename_i fs9 heq
    injection h with h1
    subst h1
    obtain ⟨hd, hfiles⟩ := rmtree_ok fs fs9 tempDir heq
    refine ⟨hd, hfiles, ?_, ?_⟩
    · intro t a hmem
      unfold purge_run at hmem
      rw [List.mem_filter] at hmem
      have h2 := hmem.2
      simp at h2
    · intro e he hne
      unfold purge_run
      rw [List.mem_filter]
      exact ⟨he, by simpa using hne⟩

theorem run_pipeline_ok_structure (runId : String) (tempDir outputDir : FsPath)
    (coliner : List String) (target : String)
    (selectFn : DataFrame → List String → List String)
    (factory : DataFrame → List String → List String → Bool → List String)
    (trStd trMm : DataFrame → List (List String))
    (rawTrain rawVal rawTest : DataFrame) (st0 : PipeState) (st : PipeState)
    (h : run_pipeline runId tempDir outputDir coliner target selectFn factory
        trStd trMm rawTrain rawVal rawTest st0 = .ok st) :
    ∃ fs8 store5, (∀ e ∈ st0.store, e ∈ store5) ∧
      teardown fs8 store5 runId tempDir = .ok st := by
  simp only [run_pipeline] at h
  split at h
  · cases h
  · rename_i fs1 hmk
    split at h
    · simp at h
    · rename_i fs2 pdict hrd
      split at h
      · cases h
      · rename_i train hrt
        split at h
        · cases h
        · rename_i fs3 hd3
          split at h
          · cases h
          · rename_i fs4 hd4
            split at h
            · cases h
            · rename_i val hrv
              split at h
              · cases h
              · rename_i test hrtest
                split at h
                · simp at h
                · rename_i fs7 hp1
                  split at h
                  · simp at h
                  · rename_i fs8 hp2
                    refine ⟨fs8, _, ?_, h⟩
                    intro e he
                    simp [List.mem_cons, he]

/-- C4: after any fully successful run, the transient working directory
no longer exists on disk (nothing in the final filesystem lies under
it), and the artifact purge removes exactly the artifacts keyed by the
run's own identifier: none of them is retrievable afterwards, while
entries keyed by any other run identifier survive — so repeated runs
never observe stale cross-run artifacts. -/
theorem run_teardown_purges (runId : String) (tempDir outputDir : FsPath)
    (coliner : List String) (target : String)
    (selectFn : DataFrame → List String → List String)
    (factory : DataFrame → List String → List String → Bool → List String)
    (trStd trMm : DataFrame → List (List String))
    (rawTrain rawVal rawTest : DataFrame) (st0 : PipeState)
    (t : TaskId) (a : Artifact) (e0 : (String × TaskId) × Artifact)
    (pf : FsPath × FileData)
    (hok : pipelineOk runId tempDir outputDir coliner target selectFn factory
        trStd trMm rawTrain rawVal rawTest st0 = true)
    (hpf : pf ∈ (finalState runId tempDir outputDir coliner target selectFn factory
        trStd trMm rawTrain rawVal rawTest st0).fs.files)
    (he0 : e0 ∈ st0.store) (hne : e0.1.1 ≠ runId) :
    tempDir ∉ (finalState runId tempDir outputDir coliner target selectFn factory
        trStd trMm rawTrain rawVal rawTest st0).fs.dirs ∧
    tempDir.isPrefixOf pf.1 = false ∧
    ((runId, t), a) ∉ (finalState runId tempDir outputDir coliner target selectFn factory
        trStd trMm rawTrain rawVal rawTest st0).store ∧
    e0 ∈ (finalState runId tempDir outputDir coliner target selectFn factory
        trStd trMm rawTrain rawVal rawTest st0).store := by
  unfold pipelineOk at hok
  unfold finalState at hpf ⊢
  cases hrp : run_pipeline runId tempDir outputDir coliner target selectFn factory
      trStd trMm rawTrain rawVal rawTest st0 with
  | error e =>
    rw [hrp] at hok
    simp at hok
  | ok st =>
    rw [hrp] at hpf
    obtain ⟨fs8, store5, hsub, htd⟩ := run_pipeline_ok_structure runId tempDir outputDir
      coliner target selectFn factory trStd trMm rawTrain rawVal rawTest st0 st hrp
    obtain ⟨hd, hfiles, hnone, hkeep⟩ := teardown_ok fs8 store5 runId tempDir st htd
    exact ⟨hd, hfiles pf hpf, hnone t a, hkeep e0 (hsub e0 he0) hne⟩

/-- Witness for C4 on a concrete fully successful run: the working
directory is gone, the published temp-dir artifact of this run is
purged, and the other run's artifact survives. -/
theorem run_teardown_purges_witness :
    pipelineOk "run1" ["temp1"] ["out"] ["dup"] "churn" (fun _ _ => ["plan"])
        (fun _ _ _ _ => ["f1"]) (fun _ => [["1", "2"]]) (fun _ => [["3", "4"]])
        c4Train c4Val c4Test c4St0 = true ∧
    ((["temp1"] : FsPath) ∉ (finalState "run1" ["temp1"] ["out"] ["dup"] "churn"
        (fun _ _ => ["plan"]) (fun _ _ _ _ => ["f1"]) (fun _ => [["1", "2"]])
        (fun _ => [["3", "4"]]) c4Train c4Val c4Test c4St0).fs.dirs ∧
      (["temp1"] : FsPath).isPrefixOf
        ((["out", "standardized", "preprocessor.bin"], FileData.blob) : FsPath × FileData).1
        = false ∧
      ((("run1", TaskId.createTempDir), Artifact.fsPath ["temp1"])
          ∉ (finalState "run1" ["temp1"] ["out"] ["dup"] "churn"
        (fun _ _ => ["plan"]) (fun _ _ _ _ => ["f1"]) (fun _ => [["1", "2"]])
        (fun _ => [["3", "4"]]) c4Train c4Val c4Test c4St0).store) ∧
      (("run0", TaskId.readData), Artifact.fsPath ["old"])
          ∈ (finalState "run1" ["temp1"] ["out"] ["dup"] "churn"
        (fun _ _ => ["plan"]) (fun _ _ _ _ => ["f1"]) (fun _ => [["1", "2"]])
        (fun _ => [["3", "4"]]) c4Train c4Val c4Test c4St0).store) :=
  ⟨by decide,
   run_teardown_purges "run1" ["temp1"] ["out"] ["dup"] "churn" (fun _ _ => ["plan"])
     (fun _ _ _ _ => ["f1"]) (fun _ => [["1", "2"]]) (fun _ => [["3", "4"]])
     c4Train c4Val c4Test c4St0 TaskId.createTempDir (Artifact.fsPath ["temp1"])
     (("run0", TaskId.readData), Artifact.fsPath ["old"])
     (["out", "standardized", "preprocessor.bin"], FileData.blob)
     (by decide) (by decide) (by decide) (by decide)⟩
